import Mathlib

/-!
Shallow embedding of `src/main/cpp/jni_amcu_template.cpp`, a JNI bridge
translating Java-visible native methods into calls on an external `AMCU`
motor-controller driver, plus two callback-forwarding notifier functions.

Modelling conventions:
* `jint` arguments are `Int` (32-bit signed values; no arithmetic is done on
  them at the boundary other than narrowing casts, which are made explicit).
* The four globals (`g_amcu`, `g_limitSwitchCallback`, `g_driveActionCallback`,
  `g_jvm`) become the fields of `BridgeState`.  Driver construction identity is
  tracked by a ghost allocation counter so that "exactly one instance" is
  expressible.
* Each bridge entry point is a pure function on `BridgeState` that also returns
  the list of calls it performed on the driver (`DriverCall`) or on the JNI
  environment (`JniAction` / `ManagedCall`), so "performs no driver call" and
  "performs zero managed-runtime calls" are trace statements.
* The notifiers return `Except JniFault _`: dereferencing the possibly-null
  `JNIEnv*` returned by `getJNIEnv` without a check is modelled as
  `JniFault.nullEnvDeref`.
-/

/-- C++ `static_cast<uint8_t>` applied to a 32-bit signed `jint`:
the value reduced modulo 2^8, as a natural number. -/
def toUInt8n (x : Int) : Nat := (x % 256).toNat

/-- C++ `static_cast<uint16_t>` applied to a `jint`: the value modulo 2^16. -/
def toUInt16n (x : Int) : Nat := (x % 65536).toNat

/-- C++ `static_cast<int8_t>` applied to a `jint`: the signed 8-bit
interpretation of the low byte, in the range [-128, 127]. -/
def toInt8n (x : Int) : Int := (x + 128) % 256 - 128

/-- C++ `static_cast<Motor>` applied to a `jint`.  `Motor` is an enum declared
in the external header `amcu.h` (not part of this repository); the spec calls
motor identifiers "small integer codes denoting a logical motor slot", so the
cast preserves the integer code. -/
def castMotor (m : Int) : Int := m

/-- One call made on the external `AMCU` driver object, with the arguments
exactly as the bridge passes them (after its narrowing casts).  `jfloat` PID
gains are carried as opaque bit patterns (`Nat`); the bridge passes them
through unchanged. -/
inductive DriverCall where
  | initOmniDriveBase (wheelRadius robotRadius : Nat) (motorLeft motorRight motorBack : Int)
  | initMecanumDriveBase (wheelRadius robotX robotY : Nat) (mfl mfr mbl mbr : Int)
  | initDifferentialDriveBase2Wheel (wheelRadius wheelDistance : Nat) (ml mr : Int)
  | initDifferentialDriveBase4Wheel (wheelRadius wheelDistance : Nat) (mfl mfr mbl mbr : Int)
  | setPID (kp ki kd : Nat)
  | setLimitSwitches (motor : Int) (high enable mode bounce : Nat)
  | setRPM (motor : Int) (rpm : Int)
  | setSpeed (motor : Int) (percent : Int)
  | resetEncoder (motor : Int)
  | stop
  | getEncoder (motor : Int)
  | getRPM (motor : Int)
  | speedDrive (x y w : Nat)
  | timeDrive (x y w t : Nat)
  | driveDistance (x y : Nat) (omega : Nat)
deriving DecidableEq, Repr

/-- Modelled from the spec: the external `AMCU` driver object (its header
`amcu.h` is referenced but not provided).  The spec says the driver owns all
actuation logic and that encoder/RPM reads yield "the driver-level
default/zero reading if the external driver has not advanced the encoder"; we
model its observable read state as association tables that start empty (all
readings zero) and are advanced only by external hardware events, never by the
bridge.  `id` is a ghost allocation identity and `calls` records the
configuration/actuation calls the driver has received. -/
structure DriverState where
  id : Nat
  calls : List DriverCall
  encoders : List (Int × Int)
  rpms : List (Int × Int)
deriving DecidableEq, Repr

/-- Modelled from the spec: table lookup with the driver-level default of zero
for a motor whose reading was never advanced. -/
def lookupReading (t : List (Int × Int)) (k : Int) : Int :=
  match t.find? (fun p => p.1 == k) with
  | some p => p.2
  | none => 0

/-- Modelled from the spec: `AMCU::getEncoder`, returning the current encoder
count for a motor (zero until the external driver advances it). -/
def amcu_getEncoder (d : DriverState) (m : Int) : Int := lookupReading d.encoders m

/-- Modelled from the spec: `AMCU::getRPM`, returning the current RPM reading
for a motor (zero until the external driver advances it). -/
def amcu_getRPM (d : DriverState) (m : Int) : Int := lookupReading d.rpms m

/-- Modelled from the spec: the external hardware advancing a motor's encoder
count.  This is the only way an encoder reading changes; the bridge itself
never calls it. -/
def amcu_advanceEncoder (d : DriverState) (m v : Int) : DriverState :=
  { d with encoders := (m, v) :: d.encoders }

/-- The four file-scope globals of the bridge, plus a ghost allocation counter
counting how many times `new AMCU()` has executed.  Callback slots hold the
JNI global-reference id currently stored (`nullptr` = `none`); `g_jvm` records
whether `JNI_OnLoad` has stored a `JavaVM` pointer. -/
structure BridgeState where
  allocCount : Nat
  g_amcu : Option DriverState
  g_limitSwitchCallback : Option Nat
  g_driveActionCallback : Option Nat
  g_jvm : Bool
deriving DecidableEq, Repr

/-- The process state right after library load: no driver, no callbacks,
`JNI_OnLoad` has stored the VM pointer. -/
def st0 : BridgeState :=
  { allocCount := 0, g_amcu := none, g_limitSwitchCallback := none,
    g_driveActionCallback := none, g_jvm := true }

/-- `JNI_OnLoad`: stores the `JavaVM` pointer and reports `JNI_VERSION_1_6`. -/
def JNI_OnLoad (st : BridgeState) : BridgeState × Int :=
  ({ st with g_jvm := true }, 65542)

/-- The `if (g_amcu) g_amcu->...(args)` pattern shared by every non-initializer
driver operation: when the singleton is absent the call is silently skipped;
otherwise the call is delivered (recorded on the driver and in the returned
trace). -/
def driverCall (st : BridgeState) (c : DriverCall) : BridgeState × List DriverCall :=
  match st.g_amcu with
  | none => (st, [])
  | some d => ({ st with g_amcu := some { d with calls := d.calls ++ [c] } }, [c])

/-- The `if (!g_amcu) g_amcu = new AMCU();` pattern shared by the four
topology initializers: construct the singleton only when it is absent. -/
def ensureDriver (st : BridgeState) : BridgeState :=
  match st.g_amcu with
  | some _ => st
  | none =>
      { st with
        g_amcu := some { id := st.allocCount, calls := [], encoders := [], rpms := [] },
        allocCount := st.allocCount + 1 }

def Java_com_frc_amcu_AMCUWrapper_initOmniDriveBaseNative
    (st : BridgeState) (wheelRadius robotRadius motorLeft motorRight motorBack : Int) :
    BridgeState × List DriverCall :=
  driverCall (ensureDriver st)
    (DriverCall.initOmniDriveBase (toUInt8n wheelRadius) (toUInt16n robotRadius)
      (castMotor motorLeft) (castMotor motorRight) (castMotor motorBack))

def Java_com_frc_amcu_AMCUWrapper_initMecanumDriveBaseNative
    (st : BridgeState) (wheelRadius robotX robotY mfl mfr mbl mbr : Int) :
    BridgeState × List DriverCall :=
  driverCall (ensureDriver st)
    (DriverCall.initMecanumDriveBase (toUInt8n wheelRadius) (toUInt16n robotX)
      (toUInt16n robotY) (castMotor mfl) (castMotor mfr) (castMotor mbl) (castMotor mbr))

def Java_com_frc_amcu_AMCUWrapper_initDifferentialDriveBase2WheelNative
    (st : BridgeState) (wheelRadius wheelDistance motorLeft motorRight : Int) :
    BridgeState × List DriverCall :=
  driverCall (ensureDriver st)
    (DriverCall.initDifferentialDriveBase2Wheel (toUInt8n wheelRadius)
      (toUInt16n wheelDistance) (castMotor motorLeft) (castMotor motorRight))

def Java_com_frc_amcu_AMCUWrapper_initDifferentialDriveBase4WheelNative
    (st : BridgeState) (wheelRadius wheelDistance mfl mfr mbl mbr : Int) :
    BridgeState × List DriverCall :=
  driverCall (ensureDriver st)
    (DriverCall.initDifferentialDriveBase4Wheel (toUInt8n wheelRadius)
      (toUInt16n wheelDistance) (castMotor mfl) (castMotor mfr) (castMotor mbl) (castMotor mbr))

def Java_com_frc_amcu_AMCUWrapper_setPIDNative
    (st : BridgeState) (kp ki kd : Nat) : BridgeState × List DriverCall :=
  driverCall st (DriverCall.setPID kp ki kd)

def Java_com_frc_amcu_AMCUWrapper_setLimitSwitchesNative
    (st : BridgeState) (motor high enable mode bounce : Int) : BridgeState × List DriverCall :=
  driverCall st
    (DriverCall.setLimitSwitches (castMotor motor) (toUInt8n high) (toUInt8n enable)
      (toUInt8n mode) (toUInt8n bounce))

def Java_com_frc_amcu_AMCUWrapper_setRPMNative
    (st : BridgeState) (motor rpm : Int) : BridgeState × List DriverCall :=
  driverCall st (DriverCall.setRPM (castMotor motor) (toInt8n rpm))

def Java_com_frc_amcu_AMCUWrapper_setSpeedNative
    (st : BridgeState) (motor percent : Int) : BridgeState × List DriverCall :=
  driverCall st (DriverCall.setSpeed (castMotor motor) (toInt8n percent))

def Java_com_frc_amcu_AMCUWrapper_resetEncoderNative
    (st : BridgeState) (motor : Int) : BridgeState × List DriverCall :=
  driverCall st (DriverCall.resetEncoder (castMotor motor))

def Java_com_frc_amcu_AMCUWrapper_stopNative (st : BridgeState) : BridgeState × List DriverCall :=
  driverCall st DriverCall.stop

/-- `getEncoderNative`: returns the driver's encoder reading when the singleton
exists, and the default `0` otherwise.  The second component is the trace of
driver calls performed. -/
def Java_com_frc_amcu_AMCUWrapper_getEncoderNative
    (st : BridgeState) (motor : Int) : Int × List DriverCall :=
  match st.g_amcu with
  | some d => (amcu_getEncoder d (castMotor motor), [DriverCall.getEncoder (castMotor motor)])
  | none => (0, [])

/-- `getRPMNative`: returns the driver's RPM reading when the singleton exists,
and the default `0` otherwise. -/
def Java_com_frc_amcu_AMCUWrapper_getRPMNative
    (st : BridgeState) (motor : Int) : Int × List DriverCall :=
  match st.g_amcu with
  | some d => (amcu_getRPM d (castMotor motor), [DriverCall.getRPM (castMotor motor)])
  | none => (0, [])

def Java_com_frc_amcu_AMCUWrapper_speedDriveNative
    (st : BridgeState) (xSpeed ySpeed wSpeed : Int) : BridgeState × List DriverCall :=
  driverCall st (DriverCall.speedDrive (toUInt8n xSpeed) (toUInt8n ySpeed) (toUInt8n wSpeed))

def Java_com_frc_amcu_AMCUWrapper_timeDriveNative
    (st : BridgeState) (xSpeed ySpeed wSpeed timeS : Int) : BridgeState × List DriverCall :=
  driverCall st
    (DriverCall.timeDrive (toUInt8n xSpeed) (toUInt8n ySpeed) (toUInt8n wSpeed) (toUInt8n timeS))

def Java_com_frc_amcu_AMCUWrapper_driveDistanceNative
    (st : BridgeState) (xMeter yMeter omegaDegree : Int) : BridgeState × List DriverCall :=
  driverCall st
    (DriverCall.driveDistance (toUInt8n xMeter) (toUInt8n yMeter) (toUInt16n omegaDegree))

/-- One JNI reference-management action performed during callback
registration. -/
inductive JniAction where
  | deleteGlobalRef (r : Nat)
  | newGlobalRef (obj : Nat) (r : Nat)
deriving DecidableEq, Repr

/-- `registerLimitSwitchCallbackNative`: if a callback is already registered,
delete its global reference and null the slot; then, if the incoming callback
is non-null, store a fresh global reference to it.  `nextRef` is the next
fresh global-reference id the JNI environment will hand out; the returned
`Nat` is the updated counter and the list records the reference actions in
program order. -/
def Java_com_frc_amcu_AMCUWrapper_registerLimitSwitchCallbackNative
    (st : BridgeState) (nextRef : Nat) (callback : Option Nat) :
    BridgeState × Nat × List JniAction :=
  let cleared : BridgeState × List JniAction :=
    match st.g_limitSwitchCallback with
    | some r => ({ st with g_limitSwitchCallback := none }, [JniAction.deleteGlobalRef r])
    | none => (st, [])
  match callback with
  | some obj =>
      ({ cleared.1 with g_limitSwitchCallback := some nextRef }, nextRef + 1,
        cleared.2 ++ [JniAction.newGlobalRef obj nextRef])
  | none => (cleared.1, nextRef, cleared.2)

/-- `registerDriveActionCallbackNative`: same pattern as the limit-switch slot,
on the drive-action slot. -/
def Java_com_frc_amcu_AMCUWrapper_registerDriveActionCallbackNative
    (st : BridgeState) (nextRef : Nat) (callback : Option Nat) :
    BridgeState × Nat × List JniAction :=
  let cleared : BridgeState × List JniAction :=
    match st.g_driveActionCallback with
    | some r => ({ st with g_driveActionCallback := none }, [JniAction.deleteGlobalRef r])
    | none => (st, [])
  match callback with
  | some obj =>
      ({ cleared.1 with g_driveActionCallback := some nextRef }, nextRef + 1,
        cleared.2 ++ [JniAction.newGlobalRef obj nextRef])
  | none => (cleared.1, nextRef, cleared.2)

/-- Environment behaviour outside the bridge's control during one callback
delivery: whether `GetEnv`/`AttachCurrentThread` yields a valid `JNIEnv*`, and
whether `GetMethodID` resolves the listener method. -/
structure JniBehavior where
  attachOk : Bool
  midFound : Bool
deriving DecidableEq, Repr

/-- `getJNIEnv`: `nullptr` when no `JavaVM` is stored; otherwise the
environment obtained by `GetEnv`, attaching the current thread when detached.
When neither `GetEnv` nor `AttachCurrentThread` produces an environment
(`attachOk = false`), the function returns `nullptr` (`none`). -/
def getJNIEnv (g_jvm : Bool) (b : JniBehavior) : Option Unit :=
  if g_jvm && b.attachOk then some () else none

/-- The listener method names the notifiers resolve. -/
inductive MName where
  | onLimitSwitchTriggered
  | onDriveAction
deriving DecidableEq, Repr

/-- One call into the managed runtime made during callback delivery. -/
inductive ManagedCall where
  | getObjectClass (r : Nat)
  | getMethodID (m : MName)
  | callVoidMethod (r : Nat) (m : MName)
deriving DecidableEq, Repr

/-- Dereferencing a null `JNIEnv*` (the unchecked `env->GetObjectClass` after a
failed attachment) is undefined behaviour; the embedding surfaces it as a
fault. -/
inductive JniFault where
  | nullEnvDeref
deriving DecidableEq, Repr

/-- `notifyLimitSwitchTriggered`: early-returns when no callback or no VM is
stored; otherwise obtains an environment via `getJNIEnv` and dereferences it
unconditionally, resolves `onLimitSwitchTriggered` with signature `()V`, and
invokes it only when the method id was found.  The result is the trace of
managed-runtime calls, or the fault raised by dereferencing a null
environment. -/
def notifyLimitSwitchTriggered (st : BridgeState) (b : JniBehavior) :
    Except JniFault (List ManagedCall) :=
  match st.g_limitSwitchCallback, st.g_jvm with
  | none, _ => Except.ok []
  | some _, false => Except.ok []
  | some r, true =>
      match getJNIEnv true b with
      | none => Except.error JniFault.nullEnvDeref
      | some _ =>
          if b.midFound then
            Except.ok [ManagedCall.getObjectClass r,
              ManagedCall.getMethodID MName.onLimitSwitchTriggered,
              ManagedCall.callVoidMethod r MName.onLimitSwitchTriggered]
          else
            Except.ok [ManagedCall.getObjectClass r,
              ManagedCall.getMethodID MName.onLimitSwitchTriggered]

/-- `notifyDriveAction`: same pattern as `notifyLimitSwitchTriggered`, on the
drive-action slot with method `onDriveAction`. -/
def notifyDriveAction (st : BridgeState) (b : JniBehavior) :
    Except JniFault (List ManagedCall) :=
  match st.g_driveActionCallback, st.g_jvm with
  | none, _ => Except.ok []
  | some _, false => Except.ok []
  | some r, true =>
      match getJNIEnv true b with
      | none => Except.error JniFault.nullEnvDeref
      | some _ =>
          if b.midFound then
            Except.ok [ManagedCall.getObjectClass r,
              ManagedCall.getMethodID MName.onDriveAction,
              ManagedCall.callVoidMethod r MName.onDriveAction]
          else
            Except.ok [ManagedCall.getObjectClass r,
              ManagedCall.getMethodID MName.onDriveAction]

/-- The bridge operations other than the four topology initializers, with
their `jint` arguments (callback registration carries the JNI fresh-reference
counter and the incoming object). -/
inductive BridgeOp where
  | setPID (kp ki kd : Nat)
  | setLimitSwitches (motor high enable mode bounce : Int)
  | setRPM (motor rpm : Int)
  | setSpeed (motor percent : Int)
  | resetEncoder (motor : Int)
  | stop
  | getEncoder (motor : Int)
  | getRPM (motor : Int)
  | speedDrive (x y w : Int)
  | timeDrive (x y w t : Int)
  | driveDistance (x y omega : Int)
  | registerLimitSwitch (nextRef : Nat) (cb : Option Nat)
  | registerDriveAction (nextRef : Nat) (cb : Option Nat)
deriving DecidableEq, Repr

/-- Run a non-initializer bridge operation: the resulting bridge state and the
trace of calls performed on the driver. -/
def runOp (op : BridgeOp) (st : BridgeState) : BridgeState × List DriverCall :=
  match op with
  | BridgeOp.setPID kp ki kd => Java_com_frc_amcu_AMCUWrapper_setPIDNative st kp ki kd
  | BridgeOp.setLimitSwitches m h e md bc =>
      Java_com_frc_amcu_AMCUWrapper_setLimitSwitchesNative st m h e md bc
  | BridgeOp.setRPM m r => Java_com_frc_amcu_AMCUWrapper_setRPMNative st m r
  | BridgeOp.setSpeed m p => Java_com_frc_amcu_AMCUWrapper_setSpeedNative st m p
  | BridgeOp.resetEncoder m => Java_com_frc_amcu_AMCUWrapper_resetEncoderNative st m
  | BridgeOp.stop => Java_com_frc_amcu_AMCUWrapper_stopNative st
  | BridgeOp.getEncoder m =>
      (st, (Java_com_frc_amcu_AMCUWrapper_getEncoderNative st m).2)
  | BridgeOp.getRPM m =>
      (st, (Java_com_frc_amcu_AMCUWrapper_getRPMNative st m).2)
  | BridgeOp.speedDrive x y w => Java_com_frc_amcu_AMCUWrapper_speedDriveNative st x y w
  | BridgeOp.timeDrive x y w t => Java_com_frc_amcu_AMCUWrapper_timeDriveNative st x y w t
  | BridgeOp.driveDistance x y om => Java_com_frc_amcu_AMCUWrapper_driveDistanceNative st x y om
  | BridgeOp.registerLimitSwitch nr cb =>
      ((Java_com_frc_amcu_AMCUWrapper_registerLimitSwitchCallbackNative st nr cb).1, [])
  | BridgeOp.registerDriveAction nr cb =>
      ((Java_com_frc_amcu_AMCUWrapper_registerDriveActionCallbackNative st nr cb).1, [])

/-- The four topology initializers with their `jint` arguments. -/
inductive InitOp where
  | omni (wheelRadius robotRadius ml mr mb : Int)
  | mecanum (wheelRadius robotX robotY mfl mfr mbl mbr : Int)
  | diff2 (wheelRadius wheelDistance ml mr : Int)
  | diff4 (wheelRadius wheelDistance mfl mfr mbl mbr : Int)
deriving DecidableEq, Repr

/-- Run a topology initializer. -/
def runInit (io : InitOp) (st : BridgeState) : BridgeState × List DriverCall :=
  match io with
  | InitOp.omni wr rr ml mr mb =>
      Java_com_frc_amcu_AMCUWrapper_initOmniDriveBaseNative st wr rr ml mr mb
  | InitOp.mecanum wr rx ry a b c d =>
      Java_com_frc_amcu_AMCUWrapper_initMecanumDriveBaseNative st wr rx ry a b c d
  | InitOp.diff2 wr wd ml mr =>
      Java_com_frc_amcu_AMCUWrapper_initDifferentialDriveBase2WheelNative st wr wd ml mr
  | InitOp.diff4 wr wd a b c d =>
      Java_com_frc_amcu_AMCUWrapper_initDifferentialDriveBase4WheelNative st wr wd a b c d

/-! Helper lemmas shared by several claims. -/

/-- With the driver singleton absent, the guarded call pattern is a perfect
no-op: the state is unchanged and no driver call is made. -/
theorem driverCall_none {st : BridgeState} (c : DriverCall) (h : st.g_amcu = none) :
    driverCall st c = (st, []) := by
  simp [driverCall, h]

/-- Frame facts for limit-switch callback registration: only the limit-switch
slot changes, and it becomes `nextRef` when the incoming callback is non-null
and empty when it is null. -/
theorem registerLS_state (st : BridgeState) (nextRef : Nat) (cb : Option Nat) :
    (Java_com_frc_amcu_AMCUWrapper_registerLimitSwitchCallbackNative st nextRef cb).1.g_amcu
        = st.g_amcu
    ∧ (Java_com_frc_amcu_AMCUWrapper_registerLimitSwitchCallbackNative st nextRef cb).1.allocCount
        = st.allocCount
    ∧ (Java_com_frc_amcu_AMCUWrapper_registerLimitSwitchCallbackNative st nextRef
        cb).1.g_driveActionCallback = st.g_driveActionCallback
    ∧ (Java_com_frc_amcu_AMCUWrapper_registerLimitSwitchCallbackNative st nextRef cb).1.g_jvm
        = st.g_jvm
    ∧ (Java_com_frc_amcu_AMCUWrapper_registerLimitSwitchCallbackNative st nextRef
        cb).1.g_limitSwitchCallback = cb.map (fun _ => nextRef) := by
  cases hs : st.g_limitSwitchCallback <;> cases cb <;>
    simp [Java_com_frc_amcu_AMCUWrapper_registerLimitSwitchCallbackNative, hs]

/-- Frame facts for drive-action callback registration: only the drive-action
slot changes. -/
theorem registerDA_state (st : BridgeState) (nextRef : Nat) (cb : Option Nat) :
    (Java_com_frc_amcu_AMCUWrapper_registerDriveActionCallbackNative st nextRef cb).1.g_amcu
        = st.g_amcu
    ∧ (Java_com_frc_amcu_AMCUWrapper_registerDriveActionCallbackNative st nextRef cb).1.allocCount
        = st.allocCount
    ∧ (Java_com_frc_amcu_AMCUWrapper_registerDriveActionCallbackNative st nextRef
        cb).1.g_limitSwitchCallback = st.g_limitSwitchCallback
    ∧ (Java_com_frc_amcu_AMCUWrapper_registerDriveActionCallbackNative st nextRef cb).1.g_jvm
        = st.g_jvm
    ∧ (Java_com_frc_amcu_AMCUWrapper_registerDriveActionCallbackNative st nextRef
        cb).1.g_driveActionCallback = cb.map (fun _ => nextRef) := by
  cases hs : st.g_driveActionCallback <;> cases cb <;>
    simp [Java_com_frc_amcu_AMCUWrapper_registerDriveActionCallbackNative, hs]

/-- The state reached by one omni-drive initialization from the post-load
state: used as a concrete initialized bridge state. -/
def stInit : BridgeState :=
  (Java_com_frc_amcu_AMCUWrapper_initOmniDriveBaseNative st0 5 10 1 2 3).1

/-- The driver instance held by `stInit`. -/
def dInit : DriverState :=
  { id := 0, calls := [DriverCall.initOmniDriveBase 5 10 1 2 3], encoders := [], rpms := [] }

/-- A post-load state with a limit-switch callback registered (global ref 7)
and no driver. -/
def stCb : BridgeState :=
  { allocCount := 0, g_amcu := none, g_limitSwitchCallback := some 7,
    g_driveActionCallback := none, g_jvm := true }

/-- A post-load state with both callback slots occupied (global refs 7 and 9). -/
def stBothCb : BridgeState :=
  { allocCount := 0, g_amcu := none, g_limitSwitchCallback := some 7,
    g_driveActionCallback := some 9, g_jvm := true }

/-- Claim C1: for every operation other than the four topology initializers,
if the driver singleton has not been constructed, the operation performs no
driver call and leaves the singleton unconstructed, and the two read
operations return the default value zero. -/
theorem uninitialized_ops_no_driver_call (op : BridgeOp) (st : BridgeState) (m : Int)
    (h : st.g_amcu = none) :
    (runOp op st).2 = []
    ∧ (runOp op st).1.g_amcu = none
    ∧ (Java_com_frc_amcu_AMCUWrapper_getEncoderNative st m).1 = 0
    ∧ (Java_com_frc_amcu_AMCUWrapper_getRPMNative st m).1 = 0 := by
  have hread1 : (Java_com_frc_amcu_AMCUWrapper_getEncoderNative st m).1 = 0 := by
    simp [Java_com_frc_amcu_AMCUWrapper_getEncoderNative, h]
  have hread2 : (Java_com_frc_amcu_AMCUWrapper_getRPMNative st m).1 = 0 := by
    simp [Java_com_frc_amcu_AMCUWrapper_getRPMNative, h]
  cases op with
  | registerLimitSwitch nr cb =>
      refine ⟨rfl, ?_, hread1, hread2⟩
      rw [show (runOp (BridgeOp.registerLimitSwitch nr cb) st).1
            = (Java_com_frc_amcu_AMCUWrapper_registerLimitSwitchCallbackNative st nr cb).1
          from rfl]
      rw [(registerLS_state st nr cb).1]
      exact h
  | registerDriveAction nr cb =>
      refine ⟨rfl, ?_, hread1, hread2⟩
      rw [show (runOp (BridgeOp.registerDriveAction nr cb) st).1
            = (Java_com_frc_amcu_AMCUWrapper_registerDriveActionCallbackNative st nr cb).1
          from rfl]
      rw [(registerDA_state st nr cb).1]
      exact h
  | getEncoder m' =>
      exact ⟨by simp [runOp, Java_com_frc_amcu_AMCUWrapper_getEncoderNative, h], h,
        hread1, hread2⟩
  | getRPM m' =>
      exact ⟨by simp [runOp, Java_com_frc_amcu_AMCUWrapper_getRPMNative, h], h,
        hread1, hread2⟩
  | _ =>
      refine ⟨?_, ?_, hread1, hread2⟩ <;>
        simp [runOp, Java_com_frc_amcu_AMCUWrapper_setPIDNative,
          Java_com_frc_amcu_AMCUWrapper_setLimitSwitchesNative,
          Java_com_frc_amcu_AMCUWrapper_setRPMNative,
          Java_com_frc_amcu_AMCUWrapper_setSpeedNative,
          Java_com_frc_amcu_AMCUWrapper_resetEncoderNative,
          Java_com_frc_amcu_AMCUWrapper_stopNative,
          Java_com_frc_amcu_AMCUWrapper_speedDriveNative,
          Java_com_frc_amcu_AMCUWrapper_timeDriveNative,
          Java_com_frc_amcu_AMCUWrapper_driveDistanceNative,
          driverCall, h]

/-- Witness for C1 at the post-load state and `setSpeed(1, 50)`. -/
theorem uninitialized_ops_no_driver_call_witness :
    (runOp (BridgeOp.setSpeed 1 50) st0).2 = []
    ∧ (runOp (BridgeOp.setSpeed 1 50) st0).1.g_amcu = none
    ∧ (Java_com_frc_amcu_AMCUWrapper_getEncoderNative st0 1).1 = 0
    ∧ (Java_com_frc_amcu_AMCUWrapper_getRPMNative st0 1).1 = 0 :=
  uninitialized_ops_no_driver_call (BridgeOp.setSpeed 1 50) st0 1 rfl

/-- Claim C2: every topology initializer leaves exactly one driver instance:
it constructs the singleton exactly when it is absent (the ghost allocation
counter increments by one), and when an instance already exists it performs no
construction and reconfigures the same instance (same identity, counter
unchanged). -/
theorem init_constructs_singleton_once (io : InitOp) (st : BridgeState) :
    ((runInit io st).1.g_amcu).isSome = true
    ∧ (st.g_amcu = none → (runInit io st).1.allocCount = st.allocCount + 1)
    ∧ (∀ d, st.g_amcu = some d →
        (runInit io st).1.allocCount = st.allocCount
        ∧ ((runInit io st).1.g_amcu).map DriverState.id = some d.id) := by
  cases io <;> cases hs : st.g_amcu <;>
    simp [runInit, Java_com_frc_amcu_AMCUWrapper_initOmniDriveBaseNative,
      Java_com_frc_amcu_AMCUWrapper_initMecanumDriveBaseNative,
      Java_com_frc_amcu_AMCUWrapper_initDifferentialDriveBase2WheelNative,
      Java_com_frc_amcu_AMCUWrapper_initDifferentialDriveBase4WheelNative,
      ensureDriver, driverCall, hs]

/-- Witness for C2: re-initializing an already-initialized bridge (omni state,
then 2-wheel differential) constructs nothing and keeps the driver identity. -/
theorem init_constructs_singleton_once_witness :
    ((runInit (InitOp.diff2 5 30 1 2) stInit).1.g_amcu).isSome = true
    ∧ (runInit (InitOp.diff2 5 30 1 2) stInit).1.allocCount = stInit.allocCount
    ∧ ((runInit (InitOp.diff2 5 30 1 2) stInit).1.g_amcu).map DriverState.id
        = some dInit.id := by
  have h := init_constructs_singleton_once (InitOp.diff2 5 30 1 2) stInit
  have h2 := h.2.2 dInit (by decide)
  exact ⟨h.1, h2.1, h2.2⟩

/-- Claim C10: registering or clearing either callback slot mutates exactly
that slot (to the fresh global reference for a non-null callback, to empty for
a null one), never touches the driver singleton or the ghost allocation
counter, and leaves the other callback slot unchanged — in every bridge state,
including those where the driver was never constructed. -/
theorem register_frame (st : BridgeState) (nextRef : Nat) (cb : Option Nat) :
    (Java_com_frc_amcu_AMCUWrapper_registerLimitSwitchCallbackNative st nextRef cb).1.g_amcu
        = st.g_amcu
    ∧ (Java_com_frc_amcu_AMCUWrapper_registerLimitSwitchCallbackNative st nextRef
        cb).1.allocCount = st.allocCount
    ∧ (Java_com_frc_amcu_AMCUWrapper_registerLimitSwitchCallbackNative st nextRef
        cb).1.g_driveActionCallback = st.g_driveActionCallback
    ∧ (Java_com_frc_amcu_AMCUWrapper_registerLimitSwitchCallbackNative st nextRef
        cb).1.g_limitSwitchCallback = cb.map (fun _ => nextRef)
    ∧ (Java_com_frc_amcu_AMCUWrapper_registerDriveActionCallbackNative st nextRef cb).1.g_amcu
        = st.g_amcu
    ∧ (Java_com_frc_amcu_AMCUWrapper_registerDriveActionCallbackNative st nextRef
        cb).1.allocCount = st.allocCount
    ∧ (Java_com_frc_amcu_AMCUWrapper_registerDriveActionCallbackNative st nextRef
        cb).1.g_limitSwitchCallback = st.g_limitSwitchCallback
    ∧ (Java_com_frc_amcu_AMCUWrapper_registerDriveActionCallbackNative st nextRef
        cb).1.g_driveActionCallback = cb.map (fun _ => nextRef) := by
  have hls := registerLS_state st nextRef cb
  have hda := registerDA_state st nextRef cb
  exact ⟨hls.1, hls.2.1, hls.2.2.1, hls.2.2.2.2, hda.1, hda.2.1, hda.2.2.1, hda.2.2.2.2⟩

/-- Claim C4: for each callback slot, registering a non-null callback while a
reference is held performs exactly the reference actions "delete the old
global reference, then create the new one" — the old reference is released
exactly once, before the new reference is stored, and the slot ends holding
the new reference. -/
theorem register_releases_prior (st : BridgeState) (nextRef obj : Nat) :
    (∀ r, st.g_limitSwitchCallback = some r →
      (Java_com_frc_amcu_AMCUWrapper_registerLimitSwitchCallbackNative st nextRef
          (some obj)).2.2
        = [JniAction.deleteGlobalRef r, JniAction.newGlobalRef obj nextRef]
      ∧ (Java_com_frc_amcu_AMCUWrapper_registerLimitSwitchCallbackNative st nextRef
          (some obj)).1.g_limitSwitchCallback = some nextRef)
    ∧ (∀ r, st.g_driveActionCallback = some r →
      (Java_com_frc_amcu_AMCUWrapper_registerDriveActionCallbackNative st nextRef
          (some obj)).2.2
        = [JniAction.deleteGlobalRef r, JniAction.newGlobalRef obj nextRef]
      ∧ (Java_com_frc_amcu_AMCUWrapper_registerDriveActionCallbackNative st nextRef
          (some obj)).1.g_driveActionCallback = some nextRef) := by
  constructor
  · intro r hr
    simp [Java_com_frc_amcu_AMCUWrapper_registerLimitSwitchCallbackNative, hr]
  · intro r hr
    simp [Java_com_frc_amcu_AMCUWrapper_registerDriveActionCallbackNative, hr]

/-- Witness for C4: replacing registered callbacks (refs 7 and 9) with a new
object deletes each old reference exactly once before storing ref 10. -/
theorem register_releases_prior_witness :
    ((Java_com_frc_amcu_AMCUWrapper_registerLimitSwitchCallbackNative stBothCb 10
          (some 42)).2.2
        = [JniAction.deleteGlobalRef 7, JniAction.newGlobalRef 42 10]
      ∧ (Java_com_frc_amcu_AMCUWrapper_registerLimitSwitchCallbackNative stBothCb 10
          (some 42)).1.g_limitSwitchCallback = some 10)
    ∧ ((Java_com_frc_amcu_AMCUWrapper_registerDriveActionCallbackNative stBothCb 10
          (some 42)).2.2
        = [JniAction.deleteGlobalRef 9, JniAction.newGlobalRef 42 10]
      ∧ (Java_com_frc_amcu_AMCUWrapper_registerDriveActionCallbackNative stBothCb 10
          (some 42)).1.g_driveActionCallback = some 10) :=
  ⟨(register_releases_prior stBothCb 10 42).1 7 rfl,
   (register_releases_prior stBothCb 10 42).2 9 rfl⟩

/-- Claim C5: for each notifier, if no listener is registered in the
corresponding slot, callback delivery performs zero managed-runtime calls and
raises no fault, whatever the environment does. -/
theorem notify_no_listener_noop (st : BridgeState) (b : JniBehavior) :
    (st.g_limitSwitchCallback = none →
      notifyLimitSwitchTriggered st b = Except.ok [])
    ∧ (st.g_driveActionCallback = none →
      notifyDriveAction st b = Except.ok []) := by
  constructor
  · intro h
    simp [notifyLimitSwitchTriggered, h]
  · intro h
    simp [notifyDriveAction, h]

/-- Witness for C5 at the post-load state (both slots empty), with an
environment that would fail attachment. -/
theorem notify_no_listener_noop_witness :
    notifyLimitSwitchTriggered st0 { attachOk := false, midFound := false } = Except.ok []
    ∧ notifyDriveAction st0 { attachOk := false, midFound := false } = Except.ok [] :=
  ⟨(notify_no_listener_noop st0 { attachOk := false, midFound := false }).1 rfl,
   (notify_no_listener_noop st0 { attachOk := false, midFound := false }).2 rfl⟩

/-- Claim C6: registering a null callback clears the slot, and every
subsequent delivery for that slot is a no-op (no managed call, no fault) until
a non-null callback is registered again — for both slots, in every state. -/
theorem register_null_clears (st : BridgeState) (nextRef : Nat) (b : JniBehavior) :
    (Java_com_frc_amcu_AMCUWrapper_registerLimitSwitchCallbackNative st nextRef
        none).1.g_limitSwitchCallback = none
    ∧ notifyLimitSwitchTriggered
        (Java_com_frc_amcu_AMCUWrapper_registerLimitSwitchCallbackNative st nextRef none).1 b
        = Except.ok []
    ∧ (Java_com_frc_amcu_AMCUWrapper_registerDriveActionCallbackNative st nextRef
        none).1.g_driveActionCallback = none
    ∧ notifyDriveAction
        (Java_com_frc_amcu_AMCUWrapper_registerDriveActionCallbackNative st nextRef none).1 b
        = Except.ok [] := by
  have hls := (registerLS_state st nextRef none).2.2.2.2
  have hda := (registerDA_state st nextRef none).2.2.2.2
  simp only [Option.map_none] at hls hda
  exact ⟨hls, by simp [notifyLimitSwitchTriggered, hls], hda,
    by simp [notifyDriveAction, hda]⟩

/-- Claim C3 counterexample: with the VM stored and a limit-switch callback
registered (global ref 7), a failed thread attachment does not degrade to a
silent no-op: `notifyLimitSwitchTriggered` dereferences the null environment
returned by `getJNIEnv` (the code calls `env->GetObjectClass` without a null
check), which the embedding reports as a fault — contradicting the claim that
this failure mode "produces no observable effect and no crash". -/
theorem attach_failure_faults :
    notifyLimitSwitchTriggered stCb { attachOk := false, midFound := true }
      = Except.error JniFault.nullEnvDeref := by
  rfl

/-- Claim C3 (amended): the failure modes "uninitialized driver", "absent
callback" and "failed method resolution" degrade to a silent no-op or a
default zero return; but when thread attachment fails while the VM is present
and a callback is registered, the notifier dereferences the null environment
(a fault) rather than no-op silently. -/
theorem failure_modes_degrade (st : BridgeState) (b : JniBehavior) (m p : Int) :
    (st.g_amcu = none →
      (Java_com_frc_amcu_AMCUWrapper_getEncoderNative st m).1 = 0
      ∧ (Java_com_frc_amcu_AMCUWrapper_getRPMNative st m).1 = 0
      ∧ Java_com_frc_amcu_AMCUWrapper_setSpeedNative st m p = (st, []))
    ∧ (st.g_limitSwitchCallback = none →
      notifyLimitSwitchTriggered st b = Except.ok [])
    ∧ (st.g_driveActionCallback = none →
      notifyDriveAction st b = Except.ok [])
    ∧ (∀ r, st.g_limitSwitchCallback = some r → st.g_jvm = true →
      b.attachOk = true → b.midFound = false →
      notifyLimitSwitchTriggered st b
        = Except.ok [ManagedCall.getObjectClass r,
            ManagedCall.getMethodID MName.onLimitSwitchTriggered])
    ∧ (∀ r, st.g_limitSwitchCallback = some r → st.g_jvm = true →
      b.attachOk = false →
      notifyLimitSwitchTriggered st b = Except.error JniFault.nullEnvDeref) := by
  refine ⟨?_, ?_, ?_, ?_, ?_⟩
  · intro h
    exact ⟨by simp [Java_com_frc_amcu_AMCUWrapper_getEncoderNative, h],
      by simp [Java_com_frc_amcu_AMCUWrapper_getRPMNative, h],
      by simp [Java_com_frc_amcu_AMCUWrapper_setSpeedNative, driverCall, h]⟩
  · intro h
    simp [notifyLimitSwitchTriggered, h]
  · intro h
    simp [notifyDriveAction, h]
  · intro r hr hj ha hm
    simp [notifyLimitSwitchTriggered, hr, hj, getJNIEnv, ha, hm]
  · intro r hr hj ha
    simp [notifyLimitSwitchTriggered, hr, hj, getJNIEnv, ha]

/-- Witness for C3 (amended) at a state with a registered callback (ref 7),
exercising the failed-attachment branch. -/
theorem failure_modes_degrade_witness :
    notifyLimitSwitchTriggered stCb { attachOk := false, midFound := true }
      = Except.error JniFault.nullEnvDeref :=
  (failure_modes_degrade stCb { attachOk := false, midFound := true } 0 0).2.2.2.2
    7 rfl rfl rfl

/-- Claim C7 counterexample: the axis speeds of `speedDriveNative` are cast
with `static_cast<uint8_t>`, not as signed narrow integers: with the forward
axis at -1, the driver receives the unsigned byte 255, while the signed
8-bit interpretation of -1 is -1. -/
theorem axis_speed_not_signed :
    (Java_com_frc_amcu_AMCUWrapper_speedDriveNative stInit (-1) 0 0).2
      = [DriverCall.speedDrive 255 0 0]
    ∧ toInt8n (-1) = -1
    ∧ ((255 : Int) ≠ -1) := by
  decide

/-- Claim C7 (amended): the three axis-speed parameters of the open-loop
velocity drive and of the duration-bounded drive (and the latter's time bound)
are passed to the driver as unsigned 8-bit narrowed values — each value the
driver receives is the input reduced modulo 2^8, not its signed-narrow
interpretation. -/
theorem axis_speeds_unsigned (st : BridgeState) (x y w t : Int)
    (h : st.g_amcu.isSome = true) :
    (Java_com_frc_amcu_AMCUWrapper_speedDriveNative st x y w).2
      = [DriverCall.speedDrive (toUInt8n x) (toUInt8n y) (toUInt8n w)]
    ∧ (Java_com_frc_amcu_AMCUWrapper_timeDriveNative st x y w t).2
      = [DriverCall.timeDrive (toUInt8n x) (toUInt8n y) (toUInt8n w) (toUInt8n t)] := by
  cases hs : st.g_amcu with
  | none => rw [hs] at h; simp at h
  | some d =>
      exact ⟨by simp [Java_com_frc_amcu_AMCUWrapper_speedDriveNative, driverCall, hs],
        by simp [Java_com_frc_amcu_AMCUWrapper_timeDriveNative, driverCall, hs]⟩

/-- Witness for C7 (amended) on the initialized state with axis input -1. -/
theorem axis_speeds_unsigned_witness :
    (Java_com_frc_amcu_AMCUWrapper_speedDriveNative stInit (-1) 0 0).2
      = [DriverCall.speedDrive (toUInt8n (-1)) (toUInt8n 0) (toUInt8n 0)]
    ∧ (Java_com_frc_amcu_AMCUWrapper_timeDriveNative stInit (-1) 0 0 2).2
      = [DriverCall.timeDrive (toUInt8n (-1)) (toUInt8n 0) (toUInt8n 0) (toUInt8n 2)] :=
  axis_speeds_unsigned stInit (-1) 0 0 2 (by decide)

/-- Claim C8: the argument narrowing at the boundary is deterministic: with
the driver present, `setRPMNative` and `setSpeedNative` always emit exactly
the canonical narrowing of their inputs (`static_cast<Motor>` of the motor id,
`static_cast<int8_t>` of the value), so two invocations of the same operation
with the same input — even from different bridge states — pass the same
narrowed bit pattern to the driver. -/
theorem narrowing_deterministic (st st' : BridgeState) (m r p : Int)
    (h : st.g_amcu.isSome = true) (h' : st'.g_amcu.isSome = true) :
    (Java_com_frc_amcu_AMCUWrapper_setRPMNative st m r).2
      = [DriverCall.setRPM (castMotor m) (toInt8n r)]
    ∧ (Java_com_frc_amcu_AMCUWrapper_setSpeedNative st m p).2
      = [DriverCall.setSpeed (castMotor m) (toInt8n p)]
    ∧ (Java_com_frc_amcu_AMCUWrapper_setRPMNative st m r).2
      = (Java_com_frc_amcu_AMCUWrapper_setRPMNative st' m r).2
    ∧ (Java_com_frc_amcu_AMCUWrapper_setSpeedNative st m p).2
      = (Java_com_frc_amcu_AMCUWrapper_setSpeedNative st' m p).2 := by
  cases hs : st.g_amcu with
  | none => rw [hs] at h; simp at h
  | some d =>
      cases hs' : st'.g_amcu with
      | none => rw [hs'] at h'; simp at h'
      | some d' =>
          refine ⟨?_, ?_, ?_, ?_⟩ <;>
            simp [Java_com_frc_amcu_AMCUWrapper_setRPMNative,
              Java_com_frc_amcu_AMCUWrapper_setSpeedNative, driverCall, hs, hs']

/-- Witness for C8 at the boundary of the declared bit-width: RPM input 128
(which narrows to the signed byte -128) and speed input -129 (narrowing to
127), repeated from two different initialized states. -/
theorem narrowing_deterministic_witness :
    (Java_com_frc_amcu_AMCUWrapper_setRPMNative stInit 1 128).2
      = [DriverCall.setRPM (castMotor 1) (toInt8n 128)]
    ∧ (Java_com_frc_amcu_AMCUWrapper_setSpeedNative stInit 1 (-129)).2
      = [DriverCall.setSpeed (castMotor 1) (toInt8n (-129))]
    ∧ (Java_com_frc_amcu_AMCUWrapper_setRPMNative stInit 1 128).2
      = (Java_com_frc_amcu_AMCUWrapper_setRPMNative
          (Java_com_frc_amcu_AMCUWrapper_setSpeedNative stInit 1 (-129)).1 1 128).2
    ∧ (Java_com_frc_amcu_AMCUWrapper_setSpeedNative stInit 1 (-129)).2
      = (Java_com_frc_amcu_AMCUWrapper_setSpeedNative
          (Java_com_frc_amcu_AMCUWrapper_setSpeedNative stInit 1 (-129)).1 1 (-129)).2 :=
  narrowing_deterministic stInit
    (Java_com_frc_amcu_AMCUWrapper_setSpeedNative stInit 1 (-129)).1 1 128 (-129)
    (by decide) (by decide)

/-- The bridge state after the C9 scenario's first step: 2-wheel differential
initializer with wheel radius 5, wheel distance 30, motors 1 and 2, from the
post-load state. -/
def stScenario1 : BridgeState :=
  (Java_com_frc_amcu_AMCUWrapper_initDifferentialDriveBase2WheelNative st0 5 30 1 2).1

/-- The bridge state after the C9 scenario's second step: `setSpeed(1, 50)`. -/
def stScenario2 : BridgeState :=
  (Java_com_frc_amcu_AMCUWrapper_setSpeedNative stScenario1 1 50).1

/-- Claim C9: after the 2-wheel differential initializer (radius 5, distance
30, motors 1 and 2) and `setSpeed(1, 50)`, reading the encoder of motor 1
before the external driver has advanced any encoder returns the driver-level
default reading zero; exactly one driver instance was constructed, it received
exactly the two expected calls, and every step is a total function of the
bridge state (no fault value exists on this path). -/
theorem scenario_diff2_encoder_zero :
    (Java_com_frc_amcu_AMCUWrapper_getEncoderNative stScenario2 1).1 = 0
    ∧ (stScenario2.g_amcu).map DriverState.calls
        = some [DriverCall.initDifferentialDriveBase2Wheel 5 30 1 2,
            DriverCall.setSpeed 1 50]
    ∧ (stScenario2.g_amcu).map DriverState.id = some 0
    ∧ stScenario2.allocCount = 1 := by
  decide
